import Mathlib

/-!
# Verification of the newscraper enrichment pipeline

Shallow embedding of the enrichment core of the `newscraper` repository:
the RocketReach lookup client (`src/integrations/rocketreach.py`), the
enrichment orchestrator and merge stage (`src/scripts/run_scraper.py`),
the e-mail validator (`src/utils/email_validation.py`) and the CSV
exporters (`src/utils/exporters.py`).

Network and disk effects are modelled by explicit oracles (a response
sequence for HTTP, result functions for DNS/SMTP, a success flag for the
disk), and the side effects the specification talks about (requests
issued, sleeps performed, files written) are returned as explicit traces.
Python floats are modelled as exact rationals; Python `int()` truncation
is `pyInt` below.
-/

namespace Newscraper

/-! ## Python string primitives

Structurally recursive models of the Python string methods the sources
use (`str.strip`, `str.lower`, `str.replace`, `str.split`), so that all
definitions evaluate inside the kernel.  Whitespace is the ASCII
whitespace set. -/

/-- The characters `str.strip()` removes (ASCII part). -/
def pyIsSpace (c : Char) : Bool :=
  c = ' ' || c = '\t' || c = '\n' || c = '\r' || c = '\x0b' || c = '\x0c'

/-- Python `s.strip()`: drop leading and trailing whitespace. -/
def pyStrip (s : String) : String :=
  ⟨((s.data.dropWhile pyIsSpace).reverse.dropWhile pyIsSpace).reverse⟩

/-- Python `s.lower()` (ASCII case mapping). -/
def pyLower (s : String) : String :=
  ⟨s.data.map Char.toLower⟩

/-- Replace every occurrence of `pat` in the list, scanning left to
right; `fuel` (the input length) only drives structural recursion. -/
def replaceGo (pat rep : List Char) : Nat → List Char → List Char
  | 0, s => s
  | _ + 1, [] => []
  | fuel + 1, c :: cs =>
      if pat.isPrefixOf (c :: cs) then
        rep ++ replaceGo pat rep fuel (List.drop pat.length (c :: cs))
      else c :: replaceGo pat rep fuel cs

/-- Python `s.replace(pat, rep)` for the non-empty literal patterns the
source uses (the empty-pattern guard is never hit there). -/
def pyReplace (s pat rep : String) : String :=
  if pat.data.isEmpty then s
  else ⟨replaceGo pat.data rep.data s.data.length s.data⟩

/-- Split a character list at every occurrence of `sep`. -/
def splitCharGo (sep : Char) : List Char → List (List Char)
  | [] => [[]]
  | c :: cs =>
      match splitCharGo sep cs with
      | seg :: rest => if c = sep then [] :: seg :: rest else (c :: seg) :: rest
      | [] => if c = sep then [[], []] else [[c]]

/-- Python `s.split(sep)` for a one-character separator. -/
def pySplit (s : String) (sep : Char) : List String :=
  (splitCharGo sep s.data).map String.mk

/-! ## RocketReach client (`src/integrations/rocketreach.py`) -/

/-- One entry of a person record under the `emails` key; each field is
`none` when the corresponding JSON key is absent (`dict.get` defaults). -/
structure RREmailInfo where
  email : Option String
  confidence : Option ℚ
deriving Repr, DecidableEq

/-- The `person` object of a RocketReach response.  `emails = some l`
means the key is present with list `l` (Python truthiness of the list is
`l ≠ []`); `current_title`/`current_company` are `none` when absent. -/
structure RRPerson where
  emails : Option (List RREmailInfo)
  current_title : Option String
  current_company : Option String
deriving Repr, DecidableEq

/-- A parsed 200-response body, partitioned exactly by the truthiness
tests the source performs: `empty` is a falsy JSON value (`if not
result`), `noPerson` a truthy body without a truthy `person` key,
`withPerson p` a truthy body with truthy `person = p`. -/
inductive RRResult
  | empty
  | noPerson
  | withPerson (p : RRPerson)
deriving Repr, DecidableEq

/-- One HTTP outcome for one issued request.  `rateLimited h` is a 429
whose `Retry-After` header is `h` (`none` when the header is absent);
`httpError c` is any other non-200 status `c`; `transportError` is a
`requests.exceptions.RequestException`. -/
inductive RRResponse
  | ok (body : RRResult)
  | rateLimited (retryAfter : Option Nat)
  | httpError (code : Nat)
  | transportError
deriving Repr, DecidableEq

/-- `RocketReachAPI._handle_rate_limit`: returns whether the caller
should retry, together with the sleeps performed (in seconds).  On a 429
the advised delay defaults to 60; above 3600 s the wait is skipped and
no retry happens; otherwise the client sleeps `min delay 300` and
retries. -/
def handle_rate_limit (resp : RRResponse) : Bool × List Nat :=
  match resp with
  | .rateLimited h =>
      let retry_after := h.getD 60
      if 3600 < retry_after then (false, [])
      else (true, [min retry_after 300])
  | _ => (false, [])

/-- Trace of one `_make_request` call: the returned value, the number of
HTTP requests issued, and the sleeps performed in order. -/
structure ReqTrace where
  result : Option RRResult
  requests : Nat
  sleeps : List Nat
deriving Repr, DecidableEq

/-- The retry loop of `RocketReachAPI._make_request`.  `responses i` is
the outcome of the `i`-th issued request; `remaining` is the number of
attempts left out of `maxRetries`, so the current attempt index is
`maxRetries - remaining`.  A 200 returns its body; a retryable 429
sleeps and continues; any other non-200 returns `none` at once; a
transport error sleeps `2 ^ attempt` and continues unless this was the
last attempt. -/
def make_request_aux (responses : Nat → RRResponse) (maxRetries : Nat) :
    Nat → ReqTrace
  | 0 => ⟨none, 0, []⟩
  | remaining + 1 =>
      let attempt := maxRetries - (remaining + 1)
      match responses attempt with
      | .ok body => ⟨some body, 1, []⟩
      | .rateLimited h =>
          match handle_rate_limit (.rateLimited h) with
          | (true, ss) =>
              let t := make_request_aux responses maxRetries remaining
              ⟨t.result, t.requests + 1, ss ++ t.sleeps⟩
          | (false, ss) => ⟨none, 1, ss⟩
      | .httpError _ => ⟨none, 1, []⟩
      | .transportError =>
          if remaining = 0 then ⟨none, 1, []⟩
          else
            let t := make_request_aux responses maxRetries remaining
            ⟨t.result, t.requests + 1, 2 ^ attempt :: t.sleeps⟩

/-- `RocketReachAPI._make_request` with its hard-coded `max_retries = 3`. -/
def make_request (responses : Nat → RRResponse) : ReqTrace :=
  make_request_aux responses 3 3

/-- The contact dictionary built by the lookup; `syntax_valid` and
`mx_valid` are `none` until the orchestrator merges validation results
(`dict.get` with default is `Option.getD`). -/
structure Contact where
  full_name : String
  email : String
  confidence : ℚ
  source : String
  domain : String
  title : String
  company : String
  syntax_valid : Option Bool := none
  mx_valid : Option Bool := none
deriving Repr, DecidableEq

/-- The "not found" sentinel record returned when the service yields no
result or no person. -/
def sentinelContact (full_name clean_domain : String) : Contact :=
  { full_name := full_name
    email := "not found"
    confidence := 0
    source := "rocketreach"
    domain := clean_domain
    title := "not found"
    company := "not found" }

/-- Domain cleaning in `lookup_email_by_name_and_domain`: Python
`str.replace` removes every occurrence of each pattern. -/
def cleanDomain (domain : String) : String :=
  pyReplace (pyReplace (pyReplace domain "www." "") "http://" "") "https://" ""

/-- `RocketReachAPI.lookup_email_by_name_and_domain`, with the HTTP layer
abstracted to the response sequence fed to `_make_request`.  Empty name
or domain short-circuits to `none`; a missing/falsy result or a body
without a truthy person yields the sentinel; a person yields a record
whose email/confidence come from the first entry of `emails` (defaults
`""` and `0.0` when absent). -/
def lookup_email_by_name_and_domain (full_name domain : String)
    (responses : Nat → RRResponse) : Option Contact :=
  if full_name = "" ∨ domain = "" then none
  else
    let clean_domain := cleanDomain domain
    match (make_request responses).result with
    | none => some (sentinelContact full_name clean_domain)
    | some .empty => some (sentinelContact full_name clean_domain)
    | some .noPerson => some (sentinelContact full_name clean_domain)
    | some (.withPerson person) =>
        let pair : String × ℚ :=
          match person.emails with
          | some (info :: _) => (info.email.getD "", info.confidence.getD 0)
          | _ => ("", 0)
        some { full_name := full_name
               email := pair.1
               confidence := pair.2
               source := "rocketreach"
               domain := clean_domain
               title := person.current_title.getD ""
               company := person.current_company.getD "" }

/-! ## E-mail validator (`src/utils/email_validation.py`)

The syntax check delegates to the external `email_validator` library, the
MX check to DNS resolution and the SMTP probe to the network; all three
are modelled as oracle functions.  The validator itself is the pure glue
the source defines. -/

/-- Outcome of `dns.resolver.resolve(domain, "MX")`: either a record list
or one of the exceptions the source catches (`NXDOMAIN`, `NoAnswer`, any
other `DNSException`). -/
inductive DnsOutcome
  | records (n : Nat)
  | nxdomain
  | noAnswer
  | dnsError
deriving Repr, DecidableEq

/-- `validate_mx_record`: a successful resolution is valid iff it holds
at least one record; every caught DNS exception is downgraded to
`false`, never propagated. -/
def validate_mx_record (resolve : String → DnsOutcome) (domain : String) : Bool :=
  match resolve domain with
  | .records n => decide (0 < n)
  | .nxdomain => false
  | .noAnswer => false
  | .dnsError => false

/-- The dictionary returned by `validate_email_full`; `error = none`
models the absent `error` key. -/
structure ValidationResult where
  syntax_valid : Bool
  mx_valid : Bool
  smtp_valid : Option Bool
  valid : Bool
  error : Option String
deriving Repr, DecidableEq

/-- `email.split("@")[1]`, total here because the source only evaluates
it after the syntax stage has guaranteed an `@`. -/
def emailDomain (email : String) : String :=
  (pySplit email '@').getD 1 ""

/-- `validate_email_full(email, smtp)` over oracles for the three
external checks.  An empty email short-circuits; otherwise the email is
normalised (`strip().lower()`), the MX stage runs only when syntax
passed, the SMTP stage only when syntax and MX passed and `smtp` was
requested, and `valid = syntax and mx and (smtp_valid is not False if
smtp else True)`. -/
def validate_email_full (syntaxCheck : String → Bool)
    (resolve : String → DnsOutcome) (smtpCheck : String → Option Bool)
    (email : String) (smtp : Bool) : ValidationResult :=
  if email = "" then
    { syntax_valid := false, mx_valid := false, smtp_valid := none
      valid := false, error := some "Invalid email format" }
  else
    let email := pyLower (pyStrip email)
    let syntax_valid := syntaxCheck email
    let mx_valid :=
      if syntax_valid then validate_mx_record resolve (emailDomain email)
      else false
    let smtp_valid :=
      if smtp && syntax_valid && mx_valid then smtpCheck email else none
    let valid := syntax_valid && mx_valid &&
      (if smtp then decide (smtp_valid ≠ some false) else true)
    let error :=
      if valid then none
      else if !syntax_valid then some "Invalid email syntax"
      else if !mx_valid then some "No MX record found"
      else if smtp && decide (smtp_valid = some false) then
        some "SMTP validation failed"
      else none
    { syntax_valid := syntax_valid, mx_valid := mx_valid
      smtp_valid := smtp_valid, valid := valid, error := error }

/-! ## Enrichment orchestrator (`src/scripts/run_scraper.py`, `enrich_with_emails`) -/

/-- An article dictionary as produced by `extract_article_data`. -/
structure Article where
  url : String
  title : String
  author : String
  source_domain : String
  date_publish : String
  language : String
  description : String
deriving Repr, DecidableEq

/-- State of the `enrich_with_emails` loop: the collected contacts, the
`processed_authors` key set (insertion order kept), and — as the
observable trace — the (author, domain) pairs passed to the lookup
client, in call order. -/
structure EnrichState where
  contacts : List Contact
  processed_authors : List String
  lookup_calls : List (String × String)
deriving Repr, DecidableEq

/-- One iteration of the `enrich_with_emails` loop.  Empty (stripped)
author or domain skips the article; a key `author ++ "_" ++ domain`
already processed skips it; otherwise the lookup client is called once
and, when the returned email is real (non-empty and not the sentinel),
the validator result's syntax/MX flags are merged into the contact. -/
def enrichStep (lookup : String → String → Option Contact)
    (validate : String → ValidationResult)
    (st : EnrichState) (article : Article) : EnrichState :=
  let author := pyStrip article.author
  let domain := pyStrip article.source_domain
  if author = "" ∨ domain = "" then st
  else
    let author_key := author ++ "_" ++ domain
    if author_key ∈ st.processed_authors then st
    else
      let st := { st with
        processed_authors := st.processed_authors ++ [author_key]
        lookup_calls := st.lookup_calls ++ [(author, domain)] }
      match lookup author domain with
      | some contact_info =>
          let email := contact_info.email
          let contact_info :=
            if email ≠ "" ∧ email ≠ "not found" then
              let validation_result := validate email
              { contact_info with
                syntax_valid := some validation_result.syntax_valid
                mx_valid := some validation_result.mx_valid }
            else contact_info
          { st with contacts := st.contacts ++ [contact_info] }
      | none => st

/-- `enrich_with_emails(articles)`: fold of `enrichStep` from the empty
state. -/
def enrich_with_emails (lookup : String → String → Option Contact)
    (validate : String → ValidationResult)
    (articles : List Article) : EnrichState :=
  articles.foldl (enrichStep lookup validate) ⟨[], [], []⟩

/-- The deduplication key the orchestrator builds for an article:
`author_key = f"{author}_{domain}"` on the stripped fields, `none` when
either field strips to empty (such articles are skipped). -/
def articleKey? (article : Article) : Option String :=
  let author := pyStrip article.author
  let domain := pyStrip article.source_domain
  if author = "" ∨ domain = "" then none
  else some (author ++ "_" ++ domain)

/-- The concatenated deduplication key of an (author, domain) pair. -/
def lookupKeyOfPair (p : String × String) : String :=
  p.1 ++ "_" ++ p.2

/-- Specification-level description of the deduplication loop,
independent of the lookup/validation oracles: walking the articles in
order with a seen-key set, it returns the keys processed and the
(author, domain) pairs handed to the lookup client, in first-seen key
order. -/
def specLoop (seen : List String) : List Article → List String × List (String × String)
  | [] => ([], [])
  | article :: rest =>
      let author := pyStrip article.author
      let domain := pyStrip article.source_domain
      if author = "" ∨ domain = "" then specLoop seen rest
      else
        let key := author ++ "_" ++ domain
        if key ∈ seen then specLoop seen rest
        else
          let tail := specLoop (seen ++ [key]) rest
          (key :: tail.1, (author, domain) :: tail.2)

/-! ## Concrete fixtures used by witnesses and counterexamples -/

/-- A person record carrying a title but no `emails` key. -/
def personNoEmail : RRPerson :=
  { emails := none, current_title := some "Editor", current_company := none }

/-- A person record with one email candidate at confidence 0.87. -/
def personJane : RRPerson :=
  { emails := some [{ email := some "jane@nyt.com", confidence := some (87/100) }]
    current_title := some "Columnist", current_company := some "NYT" }

/-- A response stream that always answers 200 with a person that has no
email. -/
def responsesNoEmail : Nat → RRResponse := fun _ => .ok (.withPerson personNoEmail)

/-- A response stream that always answers 429 with `Retry-After: 60`. -/
def responses429 : Nat → RRResponse := fun _ => .rateLimited (some 60)

/-- A response stream that always answers 429 with `Retry-After: 7200`. -/
def responses429Long : Nat → RRResponse := fun _ => .rateLimited (some 7200)

/-- A response stream: HTTP 500 first, then a successful person lookup. -/
def responses500Then200 : Nat → RRResponse := fun i =>
  if i = 0 then .httpError 500 else .ok (.withPerson personJane)

/-- A response stream that always fails at the transport layer. -/
def responsesTransport : Nat → RRResponse := fun _ => .transportError

/-- An article whose author contains an underscore. -/
def articleUnderscoreAuthor : Article :=
  { url := "https://c/1", title := "t1", author := "a_b", source_domain := "c"
    date_publish := "", language := "", description := "" }

/-- An article whose domain contains an underscore; its (author, domain)
pair differs from `articleUnderscoreAuthor`, but the concatenated
deduplication keys coincide. -/
def articleUnderscoreDomain : Article :=
  { url := "https://b_c/2", title := "t2", author := "a", source_domain := "b_c"
    date_publish := "", language := "", description := "" }

/-- A plain sample article. -/
def articleJane : Article :=
  { url := "https://nyt.com/3", title := "t3", author := "Jane Doe"
    source_domain := "nyt.com", date_publish := "", language := ""
    description := "" }

/-- A lookup oracle that always reports the sentinel. -/
def lookupSentinel : String → String → Option Contact := fun a d =>
  some (sentinelContact a d)

/-- A validation oracle that always reports full validity. -/
def validateAllValid : String → ValidationResult := fun _ =>
  { syntax_valid := true, mx_valid := true, smtp_valid := none
    valid := true, error := none }

/-- A syntax oracle that accepts every string. -/
def syntaxAlwaysTrue : String → Bool := fun _ => true

/-- A DNS oracle that always reports `NXDOMAIN`. -/
def resolveNxdomain : String → DnsOutcome := fun _ => .nxdomain

/-- A DNS oracle that always resolves to one MX record. -/
def resolveOneRecord : String → DnsOutcome := fun _ => .records 1

/-- An SMTP oracle whose probe is always inconclusive. -/
def smtpUnknown : String → Option Bool := fun _ => none

/-! ## Merge stage (`src/scripts/run_scraper.py`, `main`, lines 204-250)

Python floats are modelled as exact rationals; `int()` truncates toward
zero. -/

/-- Python `int()` on a number: truncation toward zero. -/
def pyInt (q : ℚ) : ℤ :=
  if 0 ≤ q then ⌊q⌋ else ⌈q⌉

/-- Confidence rendering in `main`:
`f"{int(confidence_raw * 100)}%" if confidence_raw > 0 else "0%"`. -/
def confidencePercent (confidence_raw : ℚ) : String :=
  if 0 < confidence_raw then toString (pyInt (confidence_raw * 100)) ++ "%"
  else "0%"

/-- An enriched article row: the article widened with the contact
columns `main` always adds. -/
structure EnrichedRow where
  article : Article
  full_name : String
  email : String
  confidence : String
  contact_title : String
  email_syntax_valid : Bool
  email_mx_valid : Bool
  rocketreach_connected : Bool
deriving Repr, DecidableEq

/-- The matching loop of `main`: first contact whose stripped
`full_name`/`domain` equal the stripped article author/domain; the
`if contacts:` guard mirrors the source (it is a no-op on `[]`). -/
def findMatchingContact (contacts : List Contact) (article_author article_domain : String) :
    Option Contact :=
  if contacts.isEmpty then none
  else contacts.find? fun c =>
    pyStrip c.full_name = article_author && pyStrip c.domain = article_domain

/-- The body of the merge loop in `main` for one article: look for a
matching contact, then widen the article with either the contact's data
or the "not found" sentinel columns; `rocketreach_connected` is
`len(contacts) > 0` either way. -/
def mergeArticle (contacts : List Contact) (article : Article) : EnrichedRow :=
  let article_author := pyStrip article.author
  let article_domain := pyStrip article.source_domain
  let matching_contact := findMatchingContact contacts article_author article_domain
  let rocketreach_connected := decide (0 < contacts.length)
  match matching_contact with
  | some c =>
      { article := article
        full_name := c.full_name
        email := c.email
        confidence := confidencePercent c.confidence
        contact_title := c.title
        email_syntax_valid := c.syntax_valid.getD false
        email_mx_valid := c.mx_valid.getD false
        rocketreach_connected := rocketreach_connected }
  | none =>
      { article := article
        full_name := "not found"
        email := "not found"
        confidence := "0%"
        contact_title := "not found"
        email_syntax_valid := false
        email_mx_valid := false
        rocketreach_connected := rocketreach_connected }

/-- The whole merge loop: one appended row per input article. -/
def enrichedArticles (articles : List Article) (contacts : List Contact) :
    List EnrichedRow :=
  articles.map (mergeArticle contacts)

/-! ## CSV exporters (`src/utils/exporters.py`)

Records are dictionaries, modelled as association lists; the pandas
`DataFrame` column set is the first-seen-order union of the keys.  The
disk is a success oracle; a write result is the returned flag together
with the column header actually written (`none` when no file was
written). -/

/-- Dictionary rows as pandas sees them. -/
abbrev CsvRecord := List (String × String)

/-- First-seen-order union of the keys of the records
(`pd.DataFrame(records).columns`). -/
def dfColumns (records : List CsvRecord) : List String :=
  records.foldl
    (fun acc row =>
      row.foldl (fun acc kv => if kv.1 ∈ acc then acc else acc ++ [kv.1]) acc)
    []

/-- `for col in required_columns: if col not in df.columns: df[col] = ""`
appends each missing required column. -/
def ensureColumns (required : List String) (cols : List String) : List String :=
  required.foldl (fun acc c => if c ∈ acc then acc else acc ++ [c]) cols

/-- The fixed article column order of `write_articles_csv`. -/
def base_columns : List String :=
  ["url", "title", "author", "source_domain", "date_publish", "language"]

/-- The fixed contact column order of `write_articles_csv`. -/
def contact_columns : List String :=
  ["full_name", "email", "confidence", "contact_title",
   "email_syntax_valid", "email_mx_valid", "rocketreach_connected"]

/-- Column selection of `write_articles_csv`: base columns, then the
contact columns present in the data, then restricted to the available
ones. -/
def articlesSelectedColumns (records : List CsvRecord) : List String :=
  let dfCols := ensureColumns ["url", "title", "author", "source_domain"]
    (dfColumns records)
  let columns := base_columns ++ contact_columns.filter (· ∈ dfCols)
  columns.filter (· ∈ dfCols)

/-- `write_articles_csv(records, path)`: empty input logs a warning and
returns `False` before anything touches the disk; otherwise the file is
written with the selected column header when the disk oracle allows it,
and any I/O failure is caught and reported as `False`.  The result is
(returned flag, header written or `none`). -/
def write_articles_csv (diskOk : Bool) (records : List CsvRecord) :
    Bool × Option (List String) :=
  if records.isEmpty then (false, none)
  else if diskOk then (true, some (articlesSelectedColumns records))
  else (false, none)

/-- Column selection of `write_contacts_csv`. -/
def contactsSelectedColumns (records : List CsvRecord) : List String :=
  let dfCols := ensureColumns ["full_name", "email", "domain", "confidence", "source"]
    (dfColumns records)
  let columns := ["full_name", "email", "domain", "confidence", "source",
    "title", "company", "syntax_valid", "mx_valid", "smtp_valid", "valid"]
  columns.filter (· ∈ dfCols)

/-- `write_contacts_csv(records, path)`: same shape as
`write_articles_csv` with the contacts schema. -/
def write_contacts_csv (diskOk : Bool) (records : List CsvRecord) :
    Bool × Option (List String) :=
  if records.isEmpty then (false, none)
  else if diskOk then (true, some (contactsSelectedColumns records))
  else (false, none)

/-! ## Theorems -/

/-! ### Step lemmas for the `_make_request` retry loop -/

/-- A 200 response ends the loop with its body and no sleep. -/
theorem make_request_aux_ok (responses : Nat → RRResponse) (mr fuel : Nat)
    (body : RRResult) (h : responses (mr - (fuel + 1)) = .ok body) :
    make_request_aux responses mr (fuel + 1) = ⟨some body, 1, []⟩ := by
  simp only [make_request_aux]
  rw [h]

/-- A non-200, non-429 response ends the loop at once with `none`. -/
theorem make_request_aux_http (responses : Nat → RRResponse) (mr fuel code : Nat)
    (h : responses (mr - (fuel + 1)) = .httpError code) :
    make_request_aux responses mr (fuel + 1) = ⟨none, 1, []⟩ := by
  simp only [make_request_aux]
  rw [h]

/-- A 429 response either aborts at once (advised delay above 3600 s) or
sleeps the capped delay and continues the loop. -/
theorem make_request_aux_429 (responses : Nat → RRResponse) (mr fuel d : Nat)
    (h : responses (mr - (fuel + 1)) = .rateLimited (some d)) :
    make_request_aux responses mr (fuel + 1) =
      if 3600 < d then ⟨none, 1, []⟩
      else ⟨(make_request_aux responses mr fuel).result,
            (make_request_aux responses mr fuel).requests + 1,
            min d 300 :: (make_request_aux responses mr fuel).sleeps⟩ := by
  simp only [make_request_aux]
  rw [h]
  by_cases h36 : 3600 < d <;> simp [handle_rate_limit, h36]

/-- A transport error sleeps `2 ^ attempt` and continues, unless it hit
the last attempt. -/
theorem make_request_aux_transport (responses : Nat → RRResponse) (mr fuel : Nat)
    (h : responses (mr - (fuel + 1)) = .transportError) :
    make_request_aux responses mr (fuel + 1) =
      if fuel = 0 then ⟨none, 1, []⟩
      else ⟨(make_request_aux responses mr fuel).result,
            (make_request_aux responses mr fuel).requests + 1,
            2 ^ (mr - (fuel + 1)) :: (make_request_aux responses mr fuel).sleeps⟩ := by
  simp only [make_request_aux]
  rw [h]

/-- The loop never issues more requests than it has attempts. -/
theorem make_request_aux_requests_le (responses : Nat → RRResponse) (mr : Nat) :
    ∀ fuel, (make_request_aux responses mr fuel).requests ≤ fuel := by
  intro fuel
  induction fuel with
  | zero => simp [make_request_aux]
  | succ n ih =>
      simp only [make_request_aux]
      cases responses (mr - (n + 1)) with
      | ok body => simp
      | rateLimited h =>
          by_cases h36 : 3600 < h.getD 60 <;>
            simp [handle_rate_limit, h36, Nat.succ_le_succ ih]
      | httpError code => simp
      | transportError =>
          by_cases hz : n = 0 <;> simp [hz, Nat.succ_le_succ ih]

/-- Whenever `_make_request` comes back empty, the lookup (for usable
inputs) returns the sentinel record. -/
theorem lookup_sentinel_of_none (full_name domain : String)
    (responses : Nat → RRResponse) (h1 : full_name ≠ "") (h2 : domain ≠ "")
    (h : (make_request responses).result = none) :
    lookup_email_by_name_and_domain full_name domain responses =
      some (sentinelContact full_name (cleanDomain domain)) := by
  simp only [lookup_email_by_name_and_domain]
  rw [if_neg (not_or.mpr ⟨h1, h2⟩), h]

/-- C1 (counterexample): with non-empty name and domain, a 200 response
whose person carries no email makes the lookup return a record whose
email is the empty string — not the "not found" sentinel the claim
requires for every no-email outcome. -/
theorem C1_person_without_email_not_sentinel :
    personNoEmail.emails = none ∧
    (lookup_email_by_name_and_domain "Jane Doe" "nytimes.com"
        responsesNoEmail).map Contact.email = some "" ∧
    (some "" : Option String) ≠ some "not found" := by
  refine ⟨rfl, by decide, by decide⟩

/-- C1 (amended): for non-empty name and domain the lookup always
returns a record (and, being a total function of the response oracle,
never raises); a missing result or a response without a truthy person
yields the "not found" sentinel; a person without any email yields a
record with empty-string email and confidence 0 (not the sentinel);
empty name or domain returns no record. -/
theorem C1_lookup_contract (full_name domain : String)
    (responses : Nat → RRResponse) :
    (full_name = "" ∨ domain = "" →
      lookup_email_by_name_and_domain full_name domain responses = none) ∧
    (full_name ≠ "" → domain ≠ "" →
      ((lookup_email_by_name_and_domain full_name domain responses).isSome = true) ∧
      ((make_request responses).result = none ∨
          (make_request responses).result = some .empty ∨
          (make_request responses).result = some .noPerson →
        lookup_email_by_name_and_domain full_name domain responses =
          some (sentinelContact full_name (cleanDomain domain))) ∧
      (∀ p : RRPerson, (make_request responses).result = some (.withPerson p) →
        p.emails = none ∨ p.emails = some [] →
        lookup_email_by_name_and_domain full_name domain responses =
          some { full_name := full_name, email := "", confidence := 0
                 source := "rocketreach", domain := cleanDomain domain
                 title := p.current_title.getD ""
                 company := p.current_company.getD "" })) := by
  constructor
  · intro h
    simp only [lookup_email_by_name_and_domain]
    rw [if_pos h]
  · intro h1 h2
    have hn : ¬(full_name = "" ∨ domain = "") := not_or.mpr ⟨h1, h2⟩
    refine ⟨?_, ?_, ?_⟩
    · simp only [lookup_email_by_name_and_domain]
      rw [if_neg hn]
      cases hres : (make_request responses).result with
      | none => rfl
      | some r => cases r <;> rfl
    · intro h3
      simp only [lookup_email_by_name_and_domain]
      rw [if_neg hn]
      rcases h3 with h | h | h <;> rw [h]
    · intro p hp hemails
      simp only [lookup_email_by_name_and_domain]
      rw [if_neg hn, hp]
      rcases hemails with h | h <;> simp [h]

/-- Witness for C1 at concrete inputs: a record is always returned, the
no-email person produces the empty-string record, and an empty name
produces no record. -/
theorem C1_lookup_contract_witness :
    (lookup_email_by_name_and_domain "Jane Doe" "nytimes.com"
        responsesNoEmail).isSome = true ∧
    lookup_email_by_name_and_domain "Jane Doe" "nytimes.com" responsesNoEmail =
      some { full_name := "Jane Doe", email := "", confidence := 0
             source := "rocketreach", domain := cleanDomain "nytimes.com"
             title := personNoEmail.current_title.getD ""
             company := personNoEmail.current_company.getD "" } ∧
    lookup_email_by_name_and_domain "" "nytimes.com" responsesNoEmail = none :=
  ⟨((C1_lookup_contract "Jane Doe" "nytimes.com" responsesNoEmail).2
      (by decide) (by decide)).1,
   ((C1_lookup_contract "Jane Doe" "nytimes.com" responsesNoEmail).2
      (by decide) (by decide)).2.2 personNoEmail rfl (Or.inl rfl),
   (C1_lookup_contract "" "nytimes.com" responsesNoEmail).1 (Or.inl rfl)⟩

/-- C2 (counterexample): with every response a 429 advising 60 s, the
client issues three requests (sleeping 60 s each time) — it retries
twice after the first rate-limit answer, not "at most once more". -/
theorem C2_three_requests_on_429 :
    make_request responses429 = ⟨none, 3, [60, 60, 60]⟩ ∧
    ¬((make_request responses429).requests ≤ 2) := by
  refine ⟨by decide, by decide⟩

/-- C2 (amended): on a 429 whose advised delay exceeds 3600 s the client
abandons at once — one request, no sleep — and the lookup returns the
"not found" sentinel; on an advised delay of at most 3600 s it sleeps
`min delay 300` and retries the same request, rate-limited retries being
allowed until the overall three-attempt ceiling (so up to two further
requests after the first 429, not one) before giving up. -/
theorem C2_rate_limit_policy (responses : Nat → RRResponse) (d : Nat) :
    (responses 0 = .rateLimited (some d) → 3600 < d →
      make_request responses = ⟨none, 1, []⟩) ∧
    (responses 0 = .rateLimited (some d) → d ≤ 3600 →
      make_request responses =
        ⟨(make_request_aux responses 3 2).result,
         (make_request_aux responses 3 2).requests + 1,
         min d 300 :: (make_request_aux responses 3 2).sleeps⟩) ∧
    ((make_request responses).requests ≤ 3) ∧
    (∀ full_name domain : String, full_name ≠ "" → domain ≠ "" →
      (make_request responses).result = none →
      lookup_email_by_name_and_domain full_name domain responses =
        some (sentinelContact full_name (cleanDomain domain))) := by
  refine ⟨?_, ?_, make_request_aux_requests_le responses 3 3, ?_⟩
  · intro h0 h36
    show make_request_aux responses 3 (2 + 1) = _
    rw [make_request_aux_429 responses 3 2 d h0, if_pos h36]
  · intro h0 h36
    show make_request_aux responses 3 (2 + 1) = _
    rw [make_request_aux_429 responses 3 2 d h0, if_neg (not_lt.mpr h36)]
  · exact fun full_name domain h1 h2 h =>
      lookup_sentinel_of_none full_name domain responses h1 h2 h

/-- Witness for C2: the long-delay 429 aborts at once and yields the
sentinel; the short-delay 429 sleeps 60 s and retries. -/
theorem C2_rate_limit_policy_witness :
    make_request responses429Long = ⟨none, 1, []⟩ ∧
    make_request responses429 =
      ⟨(make_request_aux responses429 3 2).result,
       (make_request_aux responses429 3 2).requests + 1,
       min 60 300 :: (make_request_aux responses429 3 2).sleeps⟩ ∧
    lookup_email_by_name_and_domain "Jane Doe" "nytimes.com" responses429Long =
      some (sentinelContact "Jane Doe" (cleanDomain "nytimes.com")) :=
  ⟨(C2_rate_limit_policy responses429Long 7200).1 rfl (by decide),
   (C2_rate_limit_policy responses429 60).2.1 rfl (by decide),
   (C2_rate_limit_policy responses429Long 7200).2.2.2 "Jane Doe" "nytimes.com"
     (by decide) (by decide) rfl⟩

/-- C3 (counterexample): an HTTP 500 on the first request ends the call
at once with no result — one request, no retry, no backoff — even
though the next response would have succeeded; non-200 responses outside
the rate-limit path are not retried. -/
theorem C3_no_retry_on_http_500 :
    make_request responses500Then200 = ⟨none, 1, []⟩ ∧
    responses500Then200 1 = .ok (.withPerson personJane) := by
  refine ⟨by decide, rfl⟩

/-- C3 (amended): transport errors are retried with exponential backoff
(sleeping `2 ^ attempt`) up to the three-attempt ceiling, after which —
or upon any non-200, non-429 response, which fails immediately without
retry — `_make_request` returns no result and the lookup degrades to
the "not found" sentinel instead of raising. -/
theorem C3_generic_failure_policy (responses : Nat → RRResponse) :
    (∀ code, responses 0 = .httpError code →
      make_request responses = ⟨none, 1, []⟩) ∧
    (responses 0 = .transportError → responses 1 = .transportError →
      responses 2 = .transportError →
      make_request responses = ⟨none, 3, [1, 2]⟩) ∧
    (∀ body : RRResult, responses 0 = .transportError →
      responses 1 = .transportError → responses 2 = .ok body →
      make_request responses = ⟨some body, 3, [1, 2]⟩) ∧
    (∀ full_name domain : String, full_name ≠ "" → domain ≠ "" →
      (make_request responses).result = none →
      lookup_email_by_name_and_domain full_name domain responses =
        some (sentinelContact full_name (cleanDomain domain))) := by
  refine ⟨?_, ?_, ?_, ?_⟩
  · intro code h0
    show make_request_aux responses 3 (2 + 1) = _
    rw [make_request_aux_http responses 3 2 code h0]
  · intro h0 h1 h2
    show make_request_aux responses 3 (2 + 1) = _
    rw [make_request_aux_transport responses 3 2 h0]
    rw [make_request_aux_transport responses 3 1 h1]
    rw [make_request_aux_transport responses 3 0 h2]
    simp
  · intro body h0 h1 h2
    show make_request_aux responses 3 (2 + 1) = _
    rw [make_request_aux_transport responses 3 2 h0]
    rw [make_request_aux_transport responses 3 1 h1]
    rw [make_request_aux_ok responses 3 0 body h2]
    simp
  · exact fun full_name domain h1 h2 h =>
      lookup_sentinel_of_none full_name domain responses h1 h2 h

/-- Witness for C3: three transport errors exhaust the attempts with
backoff sleeps 1 s and 2 s, and the lookup returns the sentinel. -/
theorem C3_generic_failure_policy_witness :
    make_request responsesTransport = ⟨none, 3, [1, 2]⟩ ∧
    lookup_email_by_name_and_domain "Jane Doe" "nytimes.com" responsesTransport =
      some (sentinelContact "Jane Doe" (cleanDomain "nytimes.com")) :=
  ⟨(C3_generic_failure_policy responsesTransport).2.1 rfl rfl rfl,
   (C3_generic_failure_policy responsesTransport).2.2.2 "Jane Doe" "nytimes.com"
     (by decide) (by decide) rfl⟩

/-! ### Lemmas for the deduplication loop -/

/-- The enrichment fold refines the specification loop: starting from any
state, it appends exactly the keys and lookup calls `specLoop` predicts
from that state's seen-key set, whatever the lookup and validation
oracles do. -/
theorem enrich_foldl_spec (lookup : String → String → Option Contact)
    (validate : String → ValidationResult) :
    ∀ (articles : List Article) (st : EnrichState),
      (articles.foldl (enrichStep lookup validate) st).processed_authors =
        st.processed_authors ++ (specLoop st.processed_authors articles).1 ∧
      (articles.foldl (enrichStep lookup validate) st).lookup_calls =
        st.lookup_calls ++ (specLoop st.processed_authors articles).2 := by
  intro articles
  induction articles with
  | nil => intro st; simp [specLoop]
  | cons a rest ih =>
      intro st
      simp only [List.foldl_cons]
      by_cases h1 : pyStrip a.author = "" ∨ pyStrip a.source_domain = ""
      · have hstep : enrichStep lookup validate st a = st := by
          simp only [enrichStep]
          rw [if_pos h1]
        have hspec :
            specLoop st.processed_authors (a :: rest) =
              specLoop st.processed_authors rest := by
          simp only [specLoop]
          rw [if_pos h1]
        rw [hstep, hspec]
        exact ih st
      · by_cases h2 :
            (pyStrip a.author ++ "_" ++ pyStrip a.source_domain) ∈ st.processed_authors
        · have hstep : enrichStep lookup validate st a = st := by
            simp only [enrichStep]
            rw [if_neg h1, if_pos h2]
          have hspec :
              specLoop st.processed_authors (a :: rest) =
                specLoop st.processed_authors rest := by
            simp only [specLoop]
            rw [if_neg h1, if_pos h2]
          rw [hstep, hspec]
          exact ih st
        · have hp : (enrichStep lookup validate st a).processed_authors =
              st.processed_authors ++
                [pyStrip a.author ++ "_" ++ pyStrip a.source_domain] := by
            simp only [enrichStep]
            rw [if_neg h1, if_neg h2]
            cases lookup (pyStrip a.author) (pyStrip a.source_domain) <;> simp
          have hc : (enrichStep lookup validate st a).lookup_calls =
              st.lookup_calls ++ [(pyStrip a.author, pyStrip a.source_domain)] := by
            simp only [enrichStep]
            rw [if_neg h1, if_neg h2]
            cases lookup (pyStrip a.author) (pyStrip a.source_domain) <;> simp
          have hspec1 :
              (specLoop st.processed_authors (a :: rest)).1 =
                (pyStrip a.author ++ "_" ++ pyStrip a.source_domain) ::
                  (specLoop (st.processed_authors ++
                    [pyStrip a.author ++ "_" ++ pyStrip a.source_domain]) rest).1 := by
            simp only [specLoop]
            rw [if_neg h1, if_neg h2]
          have hspec2 :
              (specLoop st.processed_authors (a :: rest)).2 =
                (pyStrip a.author, pyStrip a.source_domain) ::
                  (specLoop (st.processed_authors ++
                    [pyStrip a.author ++ "_" ++ pyStrip a.source_domain]) rest).2 := by
            simp only [specLoop]
            rw [if_neg h1, if_neg h2]
          obtain ⟨ihp, ihc⟩ := ih (enrichStep lookup validate st a)
          constructor
          · rw [ihp, hp, hspec1]
            simp
          · rw [ihc, hp, hc, hspec2]
            simp

/-- Every lookup-call pair of the specification loop maps to the
corresponding processed key. -/
theorem specLoop_calls_map_key (articles : List Article) :
    ∀ seen, (specLoop seen articles).2.map lookupKeyOfPair =
      (specLoop seen articles).1 := by
  induction articles with
  | nil => intro seen; simp [specLoop]
  | cons a rest ih =>
      intro seen
      simp only [specLoop]
      by_cases h1 : pyStrip a.author = "" ∨ pyStrip a.source_domain = ""
      · rw [if_pos h1]; exact ih seen
      · rw [if_neg h1]
        by_cases h2 : (pyStrip a.author ++ "_" ++ pyStrip a.source_domain) ∈ seen
        · rw [if_pos h2]; exact ih seen
        · rw [if_neg h2]
          simp [lookupKeyOfPair, ih]

/-- The keys produced by the specification loop avoid the seen set and
contain no duplicates. -/
theorem specLoop_keys_nodup (articles : List Article) :
    ∀ seen, (∀ k ∈ (specLoop seen articles).1, k ∉ seen) ∧
      (specLoop seen articles).1.Nodup := by
  induction articles with
  | nil => intro seen; simp [specLoop]
  | cons a rest ih =>
      intro seen
      simp only [specLoop]
      by_cases h1 : pyStrip a.author = "" ∨ pyStrip a.source_domain = ""
      · rw [if_pos h1]; exact ih seen
      · rw [if_neg h1]
        by_cases h2 : (pyStrip a.author ++ "_" ++ pyStrip a.source_domain) ∈ seen
        · rw [if_pos h2]; exact ih seen
        · rw [if_neg h2]
          obtain ⟨fresh, nodup⟩ :=
            ih (seen ++ [pyStrip a.author ++ "_" ++ pyStrip a.source_domain])
          constructor
          · intro k hk
            rcases List.mem_cons.mp hk with rfl | hk
            · exact h2
            · intro hks
              exact fresh k hk (List.mem_append_left _ hks)
          · refine List.nodup_cons.mpr ⟨?_, nodup⟩
            intro hmem
            exact fresh _ hmem
              (List.mem_append_right _ (List.mem_singleton.mpr rfl))

/-- Completeness of the specification loop: the key of every non-skipped
article ends up either already seen or among the processed keys. -/
theorem specLoop_complete (articles : List Article) :
    ∀ seen, ∀ art ∈ articles, ∀ k, articleKey? art = some k →
      k ∈ seen ∨ k ∈ (specLoop seen articles).1 := by
  induction articles with
  | nil => intro seen art hart; exact absurd hart (List.not_mem_nil art)
  | cons a rest ih =>
      intro seen art hart k hk
      simp only [specLoop]
      by_cases h1 : pyStrip a.author = "" ∨ pyStrip a.source_domain = ""
      · rw [if_pos h1]
        rcases List.mem_cons.mp hart with rfl | hart
        · rw [articleKey?, if_pos h1] at hk
          exact absurd hk (Option.noConfusion)
        · exact ih seen art hart k hk
      · rw [if_neg h1]
        by_cases h2 : (pyStrip a.author ++ "_" ++ pyStrip a.source_domain) ∈ seen
        · rw [if_pos h2]
          rcases List.mem_cons.mp hart with rfl | hart
          · rw [articleKey?, if_neg h1] at hk
            obtain rfl := Option.some_injective _ hk
            exact Or.inl h2
          · exact ih seen art hart k hk
        · rw [if_neg h2]
          rcases List.mem_cons.mp hart with rfl | hart
          · rw [articleKey?, if_neg h1] at hk
            obtain rfl := Option.some_injective _ hk
            exact Or.inr (List.mem_cons_self _ _)
          · rcases ih (seen ++ [pyStrip a.author ++ "_" ++ pyStrip a.source_domain])
                art hart k hk with hs | hnew
            · rcases List.mem_append.mp hs with hs | hs
              · exact Or.inl hs
              · exact Or.inr (by
                  obtain rfl := List.mem_singleton.mp hs
                  exact List.mem_cons_self _ _)
            · exact Or.inr (List.mem_cons_of_mem _ hnew)

/-- Every lookup-call pair of the specification loop has non-empty
components. -/
theorem specLoop_calls_nonempty (articles : List Article) :
    ∀ seen, ∀ p ∈ (specLoop seen articles).2, p.1 ≠ "" ∧ p.2 ≠ "" := by
  induction articles with
  | nil => intro seen p hp; exact absurd hp (List.not_mem_nil p)
  | cons a rest ih =>
      intro seen p hp
      simp only [specLoop] at hp
      by_cases h1 : pyStrip a.author = "" ∨ pyStrip a.source_domain = ""
      · rw [if_pos h1] at hp
        exact ih seen p hp
      · rw [if_neg h1] at hp
        push_neg at h1
        by_cases h2 : (pyStrip a.author ++ "_" ++ pyStrip a.source_domain) ∈ seen
        · rw [if_pos h2] at hp
          exact ih seen p hp
        · rw [if_neg h2] at hp
          rcases List.mem_cons.mp hp with rfl | hp
          · exact h1
          · exact ih _ p hp

/-- C4 (counterexample): the deduplication key is the underscore
concatenation of author and domain, so the two distinct non-empty pairs
("a_b", "c") and ("a", "b_c") collide; the run issues one lookup for the
first pair and none for the second, refuting "exactly once for every
distinct pair". -/
theorem C4_key_collision :
    (enrich_with_emails lookupSentinel validateAllValid
        [articleUnderscoreAuthor, articleUnderscoreDomain]).lookup_calls =
      [("a_b", "c")] ∧
    pyStrip articleUnderscoreDomain.author = "a" ∧
    pyStrip articleUnderscoreDomain.source_domain = "b_c" ∧
    ("a", "b_c") ∉
      (enrich_with_emails lookupSentinel validateAllValid
        [articleUnderscoreAuthor, articleUnderscoreDomain]).lookup_calls := by
  refine ⟨by decide, by decide, by decide, by decide⟩

/-- C4 (amended): deduplication is keyed on the concatenated string
`author ++ "_" ++ domain` rather than on the pair itself: within a run
the orchestrator performs at most one lookup per distinct concatenated
key (whatever the lookup/validation oracles return), the calls follow
first-seen key order as described by `specLoop`, articles whose stripped
author or domain is empty are skipped without lookup, and the key of
every non-skipped article is looked up; consequently each distinct
non-empty (author, domain) pair is looked up exactly once except when
two distinct pairs collide on the same concatenated key, in which case
only the first-seen pair is looked up. -/
theorem C4_lookup_dedup (lookup : String → String → Option Contact)
    (validate : String → ValidationResult) (articles : List Article) :
    (enrich_with_emails lookup validate articles).processed_authors =
      (specLoop [] articles).1 ∧
    (enrich_with_emails lookup validate articles).lookup_calls =
      (specLoop [] articles).2 ∧
    ((enrich_with_emails lookup validate articles).lookup_calls.map
      lookupKeyOfPair).Nodup ∧
    (∀ art ∈ articles, ∀ k, articleKey? art = some k →
      k ∈ (enrich_with_emails lookup validate articles).lookup_calls.map
        lookupKeyOfPair) ∧
    (∀ p ∈ (enrich_with_emails lookup validate articles).lookup_calls,
      p.1 ≠ "" ∧ p.2 ≠ "") := by
  obtain ⟨hp, hc⟩ := enrich_foldl_spec lookup validate articles ⟨[], [], []⟩
  simp only [enrich_with_emails]
  have hp0 : (articles.foldl (enrichStep lookup validate) ⟨[], [], []⟩).processed_authors =
      (specLoop [] articles).1 := by simpa using hp
  have hc0 : (articles.foldl (enrichStep lookup validate) ⟨[], [], []⟩).lookup_calls =
      (specLoop [] articles).2 := by simpa using hc
  refine ⟨hp0, hc0, ?_, ?_, ?_⟩
  · rw [hc0, specLoop_calls_map_key]
    exact (specLoop_keys_nodup articles []).2
  · intro art hart k hk
    rw [hc0, specLoop_calls_map_key]
    rcases specLoop_complete articles [] art hart k hk with habs | hmem
    · exact absurd habs (List.not_mem_nil k)
    · exact hmem
  · intro p hp'
    rw [hc0] at hp'
    exact specLoop_calls_nonempty articles [] p hp'

/-- Witness for C4: the same author/domain pair twice yields a single
lookup call, and its key is among the processed keys. -/
theorem C4_lookup_dedup_witness :
    (enrich_with_emails lookupSentinel validateAllValid
        [articleJane, articleJane]).lookup_calls =
      (specLoop [] [articleJane, articleJane]).2 ∧
    ("Jane Doe" ++ "_" ++ "nyt.com") ∈
      (enrich_with_emails lookupSentinel validateAllValid
        [articleJane, articleJane]).lookup_calls.map lookupKeyOfPair :=
  ⟨(C4_lookup_dedup lookupSentinel validateAllValid [articleJane, articleJane]).2.1,
   (C4_lookup_dedup lookupSentinel validateAllValid [articleJane, articleJane]).2.2.2.1
     articleJane (List.mem_cons_self _ _) ("Jane Doe" ++ "_" ++ "nyt.com") (by decide)⟩

/-- C5: For every input article batch, the merge stage produces exactly
one `EnrichedRow` per input `ArticleRecord` — the number of enriched
rows equals the number of input articles, with no drops and no
duplication, regardless of whether any lookup succeeded. -/
theorem C5_one_row_per_article (articles : List Article) (contacts : List Contact) :
    (enrichedArticles articles contacts).length = articles.length := by
  simp [enrichedArticles]

/-- C10: Called with an empty records list, both table exporters return
the failure signal `false` and write no output file — exactly the
observable outcome of a disk failure — and (being total functions of the
disk oracle) no exception escapes in either case. -/
theorem C10_empty_export_failure :
    ∀ diskOk : Bool,
      write_articles_csv diskOk [] = (false, none) ∧
      write_contacts_csv diskOk [] = (false, none) ∧
      ∀ records : List CsvRecord,
        write_articles_csv false records = (false, none) ∧
        write_contacts_csv false records = (false, none) := by
  intro diskOk
  refine ⟨rfl, rfl, ?_⟩
  intro records
  cases records <;> exact ⟨rfl, rfl⟩

/-- C8: For every matched article/contact pair, the exported confidence
field is the integer percentage string `⌊confidence * 100⌋` suffixed
with `%`, any confidence ≤ 0 renders as `0%`, and confidence 0.87
renders as `87%` (floats are modelled as exact rationals; Python `int`
truncation coincides with the floor on the non-negative products that
occur here). -/
theorem C8_confidence_rendering :
    (∀ c : ℚ, 0 < c → confidencePercent c = toString ⌊c * 100⌋ ++ "%") ∧
    (∀ c : ℚ, c ≤ 0 → confidencePercent c = "0%") ∧
    confidencePercent (87/100) = "87%" := by
  have floorEq : ∀ c : ℚ, 0 < c → pyInt (c * 100) = ⌊c * 100⌋ := by
    intro c hc
    have h100 : (0:ℚ) ≤ c * 100 := by positivity
    simp [pyInt, h100]
  refine ⟨?_, ?_, ?_⟩
  · intro c hc
    simp [confidencePercent, hc, floorEq c hc]
  · intro c hc
    simp [confidencePercent, not_lt.mpr hc]
  · have h1 : (0:ℚ) < 87/100 := by norm_num
    have h2 : pyInt ((87:ℚ)/100 * 100) = 87 := by
      rw [floorEq _ h1]
      norm_num
    unfold confidencePercent
    rw [if_pos h1, h2]
    decide

/-- Witness for C8 at the concrete confidences 0.87 and -1. -/
theorem C8_confidence_rendering_witness :
    confidencePercent ((87:ℚ)/100) = toString ⌊((87:ℚ)/100) * 100⌋ ++ "%" ∧
    confidencePercent (-1 : ℚ) = "0%" :=
  ⟨C8_confidence_rendering.1 ((87:ℚ)/100) (by norm_num),
   C8_confidence_rendering.2.1 (-1 : ℚ) (by norm_num)⟩

/-- C9: For an article with no matching contact, every contact field of
its row is the "not found" sentinel with confidence `0%`, and the
`rocketreach_connected` flag is true iff the run's contacts list is
non-empty — the same value for every row of the run, matched or not. -/
theorem C9_unmatched_row_sentinel (contacts : List Contact) (article : Article)
    (h : findMatchingContact contacts (pyStrip article.author)
        (pyStrip article.source_domain) = none) :
    (mergeArticle contacts article).full_name = "not found" ∧
    (mergeArticle contacts article).email = "not found" ∧
    (mergeArticle contacts article).confidence = "0%" ∧
    (mergeArticle contacts article).contact_title = "not found" ∧
    (mergeArticle contacts article).email_syntax_valid = false ∧
    (mergeArticle contacts article).email_mx_valid = false ∧
    ((mergeArticle contacts article).rocketreach_connected = true ↔ contacts ≠ []) ∧
    ∀ articles : List Article, ∀ row ∈ enrichedArticles articles contacts,
      row.rocketreach_connected = decide (0 < contacts.length) := by
  have hflag : ∀ a : Article,
      (mergeArticle contacts a).rocketreach_connected = decide (0 < contacts.length) := by
    intro a
    simp only [mergeArticle]
    split <;> rfl
  refine ⟨?_, ?_, ?_, ?_, ?_, ?_, ?_, ?_⟩
  all_goals first
    | (intro articles row hrow
       simp only [enrichedArticles, List.mem_map] at hrow
       obtain ⟨a, _, rfl⟩ := hrow
       exact hflag a)
    | (simp only [mergeArticle]
       rw [h]
       try rfl
       try (cases contacts <;> simp))

/-- Witness for C9: the empty contacts list never matches. -/
theorem C9_unmatched_row_sentinel_witness :
    (mergeArticle [] articleJane).email = "not found" ∧
    (mergeArticle [] articleJane).confidence = "0%" ∧
    ((mergeArticle [] articleJane).rocketreach_connected = true ↔
      ([] : List Contact) ≠ []) :=
  ⟨(C9_unmatched_row_sentinel [] articleJane rfl).2.1,
   (C9_unmatched_row_sentinel [] articleJane rfl).2.2.1,
   (C9_unmatched_row_sentinel [] articleJane rfl).2.2.2.2.2.2.1⟩

/-- C6: For every email string and smtp flag (over arbitrary syntax, DNS
and SMTP oracles), the overall verdict equals syntax AND mx AND
(`smtp_valid` is not explicitly false when the SMTP stage was requested,
ignored otherwise); an inconclusive SMTP probe never makes the verdict
false; the MX stage runs only when syntax passed (the result does not
depend on the DNS oracle otherwise); and the SMTP stage runs only when
syntax, MX and the opt-in all hold (otherwise `smtp_valid` is `none` and
the result does not depend on the SMTP oracle). -/
theorem C6_verdict_composition
    (syntaxCheck : String → Bool) (resolve : String → DnsOutcome)
    (smtpCheck : String → Option Bool) (email : String) (smtp : Bool) :
    ((validate_email_full syntaxCheck resolve smtpCheck email smtp).valid =
      ((validate_email_full syntaxCheck resolve smtpCheck email smtp).syntax_valid &&
        (validate_email_full syntaxCheck resolve smtpCheck email smtp).mx_valid &&
        (if smtp then
            decide ((validate_email_full syntaxCheck resolve smtpCheck email smtp).smtp_valid
              ≠ some false)
          else true))) ∧
    ((validate_email_full syntaxCheck resolve smtpCheck email smtp).smtp_valid = none →
      (validate_email_full syntaxCheck resolve smtpCheck email smtp).valid =
        ((validate_email_full syntaxCheck resolve smtpCheck email smtp).syntax_valid &&
          (validate_email_full syntaxCheck resolve smtpCheck email smtp).mx_valid)) ∧
    ((smtp = false ∨
        (validate_email_full syntaxCheck resolve smtpCheck email smtp).syntax_valid = false ∨
        (validate_email_full syntaxCheck resolve smtpCheck email smtp).mx_valid = false) →
      (validate_email_full syntaxCheck resolve smtpCheck email smtp).smtp_valid = none) ∧
    (∀ resolve2 : String → DnsOutcome, syntaxCheck (pyLower (pyStrip email)) = false →
      validate_email_full syntaxCheck resolve2 smtpCheck email smtp =
        validate_email_full syntaxCheck resolve smtpCheck email smtp) ∧
    (∀ smtpCheck2 : String → Option Bool,
      smtp = false ∨ syntaxCheck (pyLower (pyStrip email)) = false ∨
        validate_mx_record resolve (emailDomain (pyLower (pyStrip email))) = false →
      validate_email_full syntaxCheck resolve smtpCheck2 email smtp =
        validate_email_full syntaxCheck resolve smtpCheck email smtp) := by
  by_cases he : email = ""
  · refine ⟨?_, ?_, ?_, ?_, ?_⟩ <;> simp [validate_email_full, he]
  · refine ⟨?_, ?_, ?_, ?_, ?_⟩ <;>
      (try intro hside) <;>
      by_cases hs : syntaxCheck (pyLower (pyStrip email)) <;>
      by_cases hm : validate_mx_record resolve (emailDomain (pyLower (pyStrip email))) <;>
      cases smtp <;>
      simp_all [validate_email_full, he]

/-- Witness for C6 with an accepting syntax oracle, a one-record DNS
oracle, an inconclusive SMTP oracle and the SMTP stage requested. -/
theorem C6_verdict_composition_witness :
    (validate_email_full syntaxAlwaysTrue resolveOneRecord smtpUnknown
        "user@example.com" true).valid =
      ((validate_email_full syntaxAlwaysTrue resolveOneRecord smtpUnknown
          "user@example.com" true).syntax_valid &&
        (validate_email_full syntaxAlwaysTrue resolveOneRecord smtpUnknown
          "user@example.com" true).mx_valid) ∧
    (validate_email_full syntaxAlwaysTrue resolveNxdomain smtpUnknown
        "user@example.com" false).smtp_valid = none :=
  ⟨(C6_verdict_composition syntaxAlwaysTrue resolveOneRecord smtpUnknown
      "user@example.com" true).2.1 rfl,
   (C6_verdict_composition syntaxAlwaysTrue resolveNxdomain smtpUnknown
      "user@example.com" false).2.2.1 (Or.inl rfl)⟩

/-- C7: For every syntactically valid email whose domain resolution
yields zero MX records or any caught DNS failure (NXDOMAIN, no-answer,
other DNS exception), the validator returns `mx_valid = false` without
raising (the failure is a value of the total DNS oracle, downgraded to a
boolean), the overall verdict is false, the error reason is
"No MX record found", and the SMTP probe is skipped. -/
theorem C7_no_mx_record
    (syntaxCheck : String → Bool) (resolve : String → DnsOutcome)
    (smtpCheck : String → Option Bool) (email : String) (smtp : Bool)
    (h1 : email ≠ "")
    (h2 : syntaxCheck (pyLower (pyStrip email)) = true)
    (h3 : resolve (emailDomain (pyLower (pyStrip email))) = .records 0 ∨
          resolve (emailDomain (pyLower (pyStrip email))) = .nxdomain ∨
          resolve (emailDomain (pyLower (pyStrip email))) = .noAnswer ∨
          resolve (emailDomain (pyLower (pyStrip email))) = .dnsError) :
    (validate_email_full syntaxCheck resolve smtpCheck email smtp).mx_valid = false ∧
    (validate_email_full syntaxCheck resolve smtpCheck email smtp).valid = false ∧
    (validate_email_full syntaxCheck resolve smtpCheck email smtp).error =
      some "No MX record found" ∧
    (validate_email_full syntaxCheck resolve smtpCheck email smtp).smtp_valid = none := by
  have hmx : validate_mx_record resolve (emailDomain (pyLower (pyStrip email))) = false := by
    rcases h3 with h | h | h | h <;> simp [validate_mx_record, h]
  refine ⟨?_, ?_, ?_, ?_⟩ <;> simp [validate_email_full, h1, h2, hmx]

/-- Witness for C7: an NXDOMAIN oracle on a concrete address. -/
theorem C7_no_mx_record_witness :
    (validate_email_full syntaxAlwaysTrue resolveNxdomain smtpUnknown
        "user@example.com" false).valid = false ∧
    (validate_email_full syntaxAlwaysTrue resolveNxdomain smtpUnknown
        "user@example.com" false).error = some "No MX record found" :=
  ⟨(C7_no_mx_record syntaxAlwaysTrue resolveNxdomain smtpUnknown
      "user@example.com" false (by decide) rfl (Or.inr (Or.inl rfl))).2.1,
   (C7_no_mx_record syntaxAlwaysTrue resolveNxdomain smtpUnknown
      "user@example.com" false (by decide) rfl (Or.inr (Or.inl rfl))).2.2.1⟩

end Newscraper
